import Mathlib

/-!
Verification of the voice-ai-poc repository's specification against its source.

The JavaScript sources are shallowly embedded: JS strings are modelled as
`List Char` (the abbreviation `Str`), nullable / possibly-undefined values as
`Option`, throwing functions as `Except`, and the SQLite tables of one tenant
database as Lean lists of row structures.  Each embedded definition is named
after the source function it models and follows the source line by line; the
spec's claims are then stated and settled as theorems about these definitions.
-/

/-- JS strings are modelled as lists of characters. -/
abbrev Str := List Char

deriving instance DecidableEq for Except

namespace JsStr

/-- Model of `String.prototype.toLowerCase()` (ASCII fragment used by the repo). -/
def lower (s : Str) : Str := s.map Char.toLower

/-- Helper for `includes`: does `pre` occur at the head of `s`? -/
def headMatches : Str → Str → Bool
  | [], _ => true
  | _ :: _, [] => false
  | a :: as, b :: bs => a = b && headMatches as bs

/-- Model of `String.prototype.includes(needle)`: substring containment. -/
def includes (hay needle : Str) : Bool :=
  match hay with
  | [] => needle.isEmpty
  | _ :: t => headMatches needle hay || includes t needle

/-- Model of `String.prototype.split(sep)` for a one-character separator. -/
def splitChar (sep : Char) : Str → List Str
  | [] => [[]]
  | c :: cs =>
    if c = sep then [] :: splitChar sep cs
    else
      match splitChar sep cs with
      | [] => [[c]]
      | s :: ss => (c :: s) :: ss

end JsStr

/-!
## TenantDatabase (src/core/TenantDatabase.js)

One tenant database holds the three tables created by `_initializeSchema`.
Rows carry the columns that the embedded operations read or write; SQL `NULL`
becomes `Option.none`.
-/

/-- Model of one row of the core `conversations` table
(src/core/TenantDatabase.js `_initializeSchema`).  Keys are the snake_case
column names, exactly as the sqlite3 driver returns them on a row object. -/
structure ConvRow where
  id : Str
  tenant_id : Str
  call_sid : Option Str := none
  direction : Str := []
  customer_number : Str := []
  agent_config : Str := []
  conv_status : Str := "initiated".data
  transcription : Option Str := none
  recording_url : Option Str := none
  rating : Option Int := none
  analysis : Option Str := none
  success : Bool := false
  duration : Option Int := none
  completed_at : Option Str := none
  deriving Repr, DecidableEq

/-- Model of one row of `conversation_messages`. -/
structure MsgRow where
  conversation_id : Str
  role : Str
  content : Str
  deriving Repr, DecidableEq

/-- Model of one row of `callback_requests`. -/
structure CbRow where
  conversation_id : Str
  tenant_id : Str
  reason : Option Str
  cb_status : Str
  notes : Option Str := none
  deriving Repr, DecidableEq

/-- Model of class `TenantDatabase`: the per-tenant database file
`{tenantId}.db` holding this tenant's three tables.  Distinct tenants have
distinct files, so one value of this structure is one tenant's storage. -/
structure TenantDatabase where
  tenantId : Str
  conversations : List ConvRow
  messages : List MsgRow
  callback_requests : List CbRow
  deriving Repr, DecidableEq

namespace TenantDatabase

/-- Model of `TenantDatabase.getConversation`:
`SELECT * FROM conversations WHERE id = ? AND tenant_id = ?` with parameters
`[conversationId, this.tenantId]`; `db.get` yields the first matching row or
`undefined`. -/
def getConversation (db : TenantDatabase) (conversationId : Str) : Option ConvRow :=
  db.conversations.find? (fun r => r.id = conversationId && r.tenant_id = db.tenantId)

/-- Model of `TenantDatabase.getMessages`:
`SELECT * FROM conversation_messages WHERE conversation_id = ?` in timestamp
(insertion) order. -/
def getMessages (db : TenantDatabase) (conversationId : Str) : List MsgRow :=
  db.messages.filter (fun m => m.conversation_id = conversationId)

end TenantDatabase

/-!
## VoiceAIService.getCallResult (src/core/VoiceAIApiServer.js)

`getCallResult(tenantId, callId)` looks the conversation up in the tenant's
database and throws `'Call not found or access denied'` unless the row exists
and passes the tenant check.  The sqlite3 row object exposes the snake_case
column `tenant_id`; the guard reads the property `conversation.tenantId`,
which is not a key of the row object (only `agentConfig` is added by
`getConversation`), so that read yields `undefined` — modelled by
`jsTenantIdProp` returning `none`.
-/

/-- Model of the JS property read `conversation.tenantId` on a row returned by
`getConversation`: the row's keys are the snake_case column names plus
`agentConfig`, so `.tenantId` is `undefined`. -/
def jsTenantIdProp (_ : ConvRow) : Option Str := none

/-- View assembled by `getCallResult` on success (the fields claim C1 is
about; the analysis-regeneration side effect of the success path is not
needed by any claim and is elided). -/
structure CallResultView where
  tenantId : Str
  callId : Str
  result_status : Str
  transcript : List MsgRow
  deriving Repr, DecidableEq

/-- Model of `VoiceAIService.getCallResult` for a tenant whose services
resolve to the per-tenant database `db` (so `db.tenantId` is the tenant the
request is namespaced under).  Mirrors:
`if (!conversation || conversation.tenantId !== tenantId) throw new Error('Call not found or access denied')`. -/
def getCallResult (db : TenantDatabase) (tenantId callId : Str) :
    Except Str CallResultView :=
  match db.getConversation callId with
  | none => .error ("Call not found or access denied".data)
  | some conversation =>
    if jsTenantIdProp conversation ≠ some tenantId then
      .error ("Call not found or access denied".data)
    else
      .ok { tenantId := tenantId, callId := callId,
            result_status := conversation.conv_status,
            transcript := db.getMessages callId }

/-- Witness for C1 at a concrete contaminated database: tenant `"B"`'s
database containing a row whose call belongs to tenant `"A"`. -/
def dbBexample : TenantDatabase :=
  { tenantId := "B".data
    conversations := [{ id := "c1".data, tenant_id := "A".data }]
    messages := []
    callback_requests := [] }

/-!
## Consent flow: handleAgentCall (src/unnamed/part_010, with models/Conversation.js)

The webhook route file models one call's processing.  The data model is the
one created by src/scripts/init-db.js and used by models/Conversation.js: a
`conversations` row has no status column at all, and `handleAgentCall` never
writes any call status.  External effects the handler consumes (the uuid drawn
for a created conversation, the TTS file URL, the LLM result) enter the step
as oracle fields of the webhook event.
-/

namespace Calls

/-- Model of one row of the single-tenant `conversations` table
(src/scripts/init-db.js); note there is no `status` column. -/
structure ConvRec where
  id : Str
  agent_id : Option Str
  call_sid : Option Str
  direction : Str
  customer_number : Str
  transcription : Option Str := none
  audio_url : Option Str := none
  recording_url : Option Str := none
  rating : Option Int := none
  analysis : Option Str := none
  success : Bool := false
  duration : Option Int := none
  deriving Repr, DecidableEq

/-- Model of one `conversation_messages` row (only the fields the handler
reads and writes). -/
structure Msg where
  role : Str
  content : Str
  deriving Repr, DecidableEq

/-- Model of one `callback_requests` row as created by
models/CallbackRequest.js `create`. -/
structure CallbackRec where
  conversation_id : Str
  customer_number : Str
  agent_id : Str
  reason : Option Str
  cb_status : Str
  deriving Repr, DecidableEq

/-- Model of an agent row (models/Agent.js fields used by the handler). -/
structure AgentRec where
  id : Str
  name : Str
  prompt : Str
  voice : Str
  deriving Repr, DecidableEq

/-- State of one call (identified by its provider call sid): its conversation
row, its messages in insertion order, and the callback requests created for
it. -/
structure CallState where
  conversation : Option ConvRec
  messages : List Msg
  callbacks : List CallbackRec
  deriving Repr, DecidableEq

/-- One webhook delivery for this call, together with the oracle values the
handler obtains from its collaborators while processing it: the uuid drawn if
`Conversation.create` runs, the TTS file URL, and the LLM result used in the
active branch. -/
structure WebhookEvent where
  consentQuery : Bool
  speechResult : Option Str
  direction : Option Str
  callSid : Str
  fromNumber : Str
  newConvId : Str
  ttsUrl : Str
  aiResponse : Str
  aiTransferRequested : Bool
  aiTransferReason : Option Str
  deriving Repr, DecidableEq

/-- Call-control responses the route can send (TwilioService generators and
the inline goodbye markup). -/
inductive Twiml where
  | gather (audioUrl : Option Str) (actionUrl : Str)
  | consentGather (actionUrl : Str)
  | playHangup (audioUrl : Str)
  | transferGather (audioUrl : Str) (actionUrl : Str)
  deriving Repr, DecidableEq

/-- Model of the JS idiom `a || b` on a possibly-absent string (empty string
is falsy). -/
def jsOrStr (v : Option Str) (d : Str) : Str :=
  match v with
  | some s => if s.isEmpty then d else s
  | none => d

/-- Model of the consent classification (src/unnamed/part_010 lines 262-264):
`consentResponse.includes('yes') || ... ('agree') || ... ('okay') || ...
('sure')` on `twilioData.speechResult?.toLowerCase() || ''`. -/
def consentAgreed (speechResult : Option Str) : Bool :=
  let consentResponse := JsStr.lower (speechResult.getD [])
  JsStr.includes consentResponse ("yes".data) ||
  JsStr.includes consentResponse ("agree".data) ||
  JsStr.includes consentResponse ("okay".data) ||
  JsStr.includes consentResponse ("sure".data)

/-- Greeting spoken after affirmative consent (line 269). -/
def greetingFor (agent : AgentRec) : Str :=
  "Thank you for your consent. ".data ++ agent.name ++ " here. How can I help you today?".data

/-- Fallback greeting of the no-speech active branch (lines 348-350; both
arms of the ternary are the same string). -/
def fallbackGreeting (agent : AgentRec) : Str :=
  "Hello! This is ".data ++ agent.name ++ ". How can I help you today?".data

/-- Action URL `${config.app.baseUrl}/api/calls/twiml/${agent.id}`. -/
def twimlActionUrl (baseUrl : Str) (agent : AgentRec) : Str :=
  baseUrl ++ "/api/calls/twiml/".data ++ agent.id

/-- Model of `Conversation.create` as invoked at lines 252-257. -/
def convCreate (e : WebhookEvent) (agent : AgentRec) : ConvRec :=
  { id := e.newConvId
    agent_id := some agent.id
    call_sid := some e.callSid
    direction := jsOrStr e.direction ("inbound".data)
    customer_number := e.fromNumber }

/-- Model of `handleAgentCall` (src/unnamed/part_010 lines 241-367): the full
branch structure of the shared webhook handler for one call. -/
def handleAgentCall (baseUrl : Str) (agent : AgentRec) (s : CallState)
    (e : WebhookEvent) : CallState × Twiml :=
  if e.consentQuery then
    let conversation := match s.conversation with
      | none => some (convCreate e agent)
      | some c => some c
    let agreed := consentAgreed e.speechResult
    if agreed then
      let greeting := greetingFor agent
      ({ conversation := conversation.map (fun c => { c with audio_url := some e.ttsUrl })
         messages := s.messages ++ [{ role := "assistant".data, content := greeting }]
         callbacks := s.callbacks },
       .gather (some e.ttsUrl) (twimlActionUrl baseUrl agent))
    else
      ({ conversation := conversation, messages := s.messages, callbacks := s.callbacks },
       .playHangup e.ttsUrl)
  else
    match s.conversation with
    | none => (s, .consentGather (twimlActionUrl baseUrl agent))
    | some conv =>
      if s.messages.isEmpty then
        (s, .consentGather (twimlActionUrl baseUrl agent))
      else
        match e.speechResult with
        | some speech =>
          let messages2 := (s.messages ++ [{ role := "user".data, content := speech }])
            ++ [{ role := "assistant".data, content := e.aiResponse }]
          if e.aiTransferRequested then
            ({ conversation := some { conv with audio_url := some e.ttsUrl }
               messages := messages2
               callbacks := s.callbacks ++
                 [{ conversation_id := conv.id, customer_number := e.fromNumber,
                    agent_id := agent.id, reason := e.aiTransferReason,
                    cb_status := "pending".data }] },
             .transferGather e.ttsUrl (twimlActionUrl baseUrl agent))
          else
            ({ conversation := some { conv with audio_url := some e.ttsUrl }
               messages := messages2
               callbacks := s.callbacks },
             .gather (some e.ttsUrl) (twimlActionUrl baseUrl agent))
        | none =>
          ({ conversation := some { conv with audio_url := some e.ttsUrl }
             messages := s.messages ++
               [{ role := "assistant".data, content := fallbackGreeting agent }]
             callbacks := s.callbacks },
           .gather (some e.ttsUrl) (twimlActionUrl baseUrl agent))

/-- Runs a sequence of webhook events for one call through the handler. -/
def runTrace (baseUrl : Str) (agent : AgentRec) (s : CallState)
    (es : List WebhookEvent) : CallState :=
  es.foldl (fun s e => (handleAgentCall baseUrl agent s e).1) s

/-- Keyword set of the consent classifier, as in the source. -/
def consentKeywords : List Str :=
  ["yes".data, "agree".data, "okay".data, "sure".data]

/-- Concrete data for the consent-flow witnesses and counterexamples. -/
def agentEx : AgentRec :=
  { id := "a1".data, name := "Sarah".data, prompt := "You are Sarah".data,
    voice := "aura-asteria-en".data }

/-- Existing conversation row used by concrete consent scenarios. -/
def convEx : ConvRec :=
  { id := "conv1".data, agent_id := some ("a1".data), call_sid := some ("CA1".data),
    direction := "inbound".data, customer_number := "+15551230000".data }

/-- Call state at the consent stage: conversation created, no messages yet. -/
def consentStateEx : CallState :=
  { conversation := some convEx, messages := [], callbacks := [] }

/-- Consent webhook carrying an affirmative utterance. -/
def eventYesEx : WebhookEvent :=
  { consentQuery := true, speechResult := some ("Yes I agree".data),
    direction := some ("inbound".data), callSid := "CA1".data,
    fromNumber := "+15551230000".data, newConvId := "conv1".data,
    ttsUrl := "/audio/t1.wav".data, aiResponse := [],
    aiTransferRequested := false, aiTransferReason := none }

/-- Consent webhook carrying a negative utterance. -/
def eventNoEx : WebhookEvent :=
  { eventYesEx with speechResult := some ("no thank you".data),
                    ttsUrl := "/audio/t2.wav".data }

/-- Non-consent webhook used in the C3 witness trace. -/
def eventMidCallEx : WebhookEvent :=
  { eventNoEx with consentQuery := false,
                   speechResult := some ("tell me more".data),
                   aiResponse := "Happy to help.".data }

end Calls

/-!
## TenantAIService.analyzeConversation (src/core/services/TenantAIService.js)

The analysis pass calls the LLM through `generateResponse` and parses the
returned text with `JSON.parse`.  Both collaborators are external: the
embedding receives the combined outcome — the LLM call threw, or returned
text that failed to parse as JSON, or returned text parsed into an object
with the optional fields the code reads.  Each arm of `analyzeConversation`
below is the corresponding literal object of the source.
-/

namespace TenantAI

/-- Fields the code reads off the parsed JSON object; every one may be
absent. -/
structure ParsedAnalysis where
  rating : Option Int := none
  sentiment : Option Str := none
  topics : Option (List Str) := none
  resolved : Option Bool := none
  improvements : Option (List Str) := none
  deriving Repr, DecidableEq

/-- Combined outcome of `this.generateResponse(...)` followed by
`JSON.parse(analysis.response)`: the LLM call threw, or its text failed to
parse, or it parsed to an object. -/
inductive AnalysisOutcome where
  | llmError
  | parseError
  | parsed (p : ParsedAnalysis)
  deriving Repr, DecidableEq

/-- Result record of `analyzeConversation`. -/
structure Analysis where
  rating : Int
  sentiment : Str
  topics : List Str
  resolved : Bool
  improvements : List Str
  categories : List Str
  deriving Repr, DecidableEq

/-- Model of the JS idiom `v || d` for a possibly-absent number (`0` is
falsy). -/
def jsOrInt (v : Option Int) (d : Int) : Int :=
  match v with
  | some 0 => d
  | some r => r
  | none => d

/-- Model of the JS idiom `v || d` for a possibly-absent string (`''` is
falsy). -/
def jsOrStrD (v : Option Str) (d : Str) : Str :=
  match v with
  | some s => if s.isEmpty then d else s
  | none => d

/-- Keyword table of `_categorizeConversation`. -/
def categoryKeywords : List (Str × List Str) :=
  [("sales".data, ["buy".data, "purchase".data, "price".data, "cost".data, "order".data]),
   ("support".data, ["help".data, "problem".data, "issue".data, "not working".data, "broken".data]),
   ("billing".data, ["bill".data, "payment".data, "charge".data, "refund".data, "invoice".data]),
   ("general".data, ["information".data, "about".data, "question".data, "hours".data])]

/-- Model of `TenantAIService._categorizeConversation` (lines 410-428): the
deterministic keyword fallback over the lower-cased transcript. -/
def categorizeConversation (transcript : Str) : List Str :=
  let lowerTranscript := JsStr.lower transcript
  let found := (categoryKeywords.filter
    (fun ck => ck.2.any (fun keyword => JsStr.includes lowerTranscript keyword))).map
    (fun ck => ck.1)
  if found.length > 0 then found else ["general".data]

/-- Model of `TenantAIService.analyzeConversation` (lines 147-202): success
path builds the record from the parsed fields (rating unclamped), the
JSON-parse failure path returns the neutral fallback, and the outer catch for
an LLM failure returns the error record. -/
def analyzeConversation (outcome : AnalysisOutcome) (transcript : Str) : Analysis :=
  match outcome with
  | .parsed p =>
    { rating := jsOrInt p.rating 5
      sentiment := jsOrStrD p.sentiment ("neutral".data)
      topics := p.topics.getD []
      resolved := p.resolved.getD false
      improvements := p.improvements.getD []
      categories := categorizeConversation transcript }
  | .parseError =>
    { rating := 5
      sentiment := "neutral".data
      topics := ["general inquiry".data]
      resolved := false
      improvements := ["Unable to analyze".data]
      categories := ["general".data] }
  | .llmError =>
    { rating := 1
      sentiment := "error".data
      topics := ["analysis failed".data]
      resolved := false
      improvements := ["Analysis error".data]
      categories := ["error".data] }

end TenantAI

/-!
## WebhookManager (src/core/WebhookManager.js)

`generateCallWebhookUrl` builds `${baseUrl}/api/voice/${tenantId}/calls/${callId}`
(plus `?action=${action}` when `action` is truthy) after checking that
webhooks were set up for the tenant; `parseWebhookRequest` feeds the URL to
`new URL(...)` and splits the pathname on `/`.  The WHATWG URL decomposition
of such an http(s) URL — pathname and query — is embedded by `pathAndQuery`.
-/

namespace Webhook

/-- Base URL of the manager: `process.env.WEBHOOK_BASE_URL || 'https://your-domain.com'`
(the default, with no environment override). -/
def webhookBaseUrl : Str := "https://your-domain.com".data

/-- Model of `WebhookManager.generateCallWebhookUrl(tenantId, callId, action)`:
throws when `setupTenantWebhooks` has not run for the tenant, else returns the
call webhook URL, appending `?action=${action}` only when `action` is truthy.
`tenantWebhooks` is the key set of the manager's `tenantWebhooks` map. -/
def generateCallWebhookUrl (tenantWebhooks : List Str) (tenantId callId : Str)
    (action : Option Str) : Except Str Str :=
  if tenantId ∈ tenantWebhooks then
    .ok (webhookBaseUrl ++ "/api/voice/".data ++ tenantId ++ "/calls/".data ++ callId ++
      (match action with
       | some a => if a.isEmpty then [] else "?action=".data ++ a
       | none => []))
  else
    .error ("Webhooks not configured for tenant ".data ++ tenantId)

/-- Scanner for the `//` of the URL scheme separator. -/
def afterDoubleSlash : Str → Str
  | '/' :: '/' :: r => r
  | _ :: r => afterDoubleSlash r
  | [] => []

/-- Model of the WHATWG decomposition `new URL(url)` into `.pathname` and the
query string (the part `searchParams` is built from) for an http(s) URL: skip
`scheme://`, skip the host up to the first `/`, then split the remainder at
the first `?`. -/
def pathAndQuery (url : Str) : Str × Option Str :=
  let hostRest := afterDoubleSlash url
  let pq := hostRest.dropWhile (fun c => c != '/')
  let path := pq.takeWhile (fun c => c != '?')
  let rest := pq.dropWhile (fun c => c != '?')
  match rest with
  | '?' :: q => (path, some q)
  | _ => (path, none)

/-- Model of `urlParts.searchParams.get(key)` on the query string. -/
def searchParamGet (query : Option Str) (key : Str) : Option Str :=
  match query with
  | none => none
  | some q =>
    (JsStr.splitChar '&' q).findSome? (fun kv =>
      match JsStr.splitChar '=' kv with
      | [k, v] => if k = key then some v else none
      | _ => none)

/-- Result object of `parseWebhookRequest`; a field holds `none` where the JS
object holds `undefined` (an index past the end of `pathParts`) or `null`. -/
structure ParsedWebhook where
  tenantId : Option Str
  callId : Option Str
  endpoint : Option Str
  action : Option Str
  deriving Repr, DecidableEq

/-- Truthiness of `pathParts[5]` in JS: present and non-empty. -/
def jsTruthyStrOpt (v : Option Str) : Bool :=
  match v with
  | some s => !s.isEmpty
  | none => false

/-- Model of `WebhookManager.parseWebhookRequest` (lines 76-104). -/
def parseWebhookRequest (url : Str) : Except Str ParsedWebhook :=
  let pq := pathAndQuery url
  let pathParts := JsStr.splitChar '/' pq.1
  if pathParts.get? 1 = some ("api".data) ∧ pathParts.get? 2 = some ("voice".data) then
    if pathParts.get? 4 = some ("calls".data) ∧ jsTruthyStrOpt (pathParts.get? 5) = true then
      .ok { tenantId := pathParts.get? 3, callId := pathParts.get? 5,
            endpoint := some ("call".data),
            action := searchParamGet pq.2 ("action".data) }
    else
      .ok { tenantId := pathParts.get? 3, endpoint := pathParts.get? 4,
            callId := none, action := none }
  else
    .error ("Invalid webhook URL format: ".data ++ url)

/-- URL-safe (RFC 3986 unreserved) characters. -/
def urlSafeChar (c : Char) : Bool :=
  c.isAlphanum || c == '-' || c == '_' || c == '.' || c == '~'

/-- A string composed of URL-safe characters. -/
def urlSafe (s : Str) : Bool := s.all urlSafeChar

end Webhook

/-!
## Call-status callbacks (src/unnamed/part_010 router.post('/status') and
src/core/VoiceAIApiServer.js handleCallStatus)

Each handler wraps its body in try/catch.  The database operations the body
awaits can throw; their outcomes enter the embedding as `Except` oracles, and
the handler returns the HTTP status code it sends.
-/

namespace StatusRoute

/-- Body fields of a Twilio status callback that the handlers read. -/
structure StatusBody where
  CallSid : Str
  CallStatus : Str
  RecordingUrl : Option Str
  deriving Repr, DecidableEq

/-- Outcomes of the awaited database operations of the `/status` route body
(each can throw).  `aiService.analyzeConversation` catches internally and
never throws, so it needs no outcome here. -/
structure StatusDbOps where
  findByCallSid : Except Unit (Option Calls.ConvRec)
  getMsgs : Except Unit (List Calls.Msg)
  update : Except Unit Unit

/-- Try-block of `router.post('/status')` (src/unnamed/part_010 lines
370-391): find the conversation; when found and the status is `completed`,
read the messages and analyze; always update the row. -/
def statusProcessing (body : StatusBody) (db : StatusDbOps) : Except Unit Unit := do
  let conversation ← db.findByCallSid
  match conversation with
  | some _ => do
    if body.CallStatus = "completed".data then
      let _ ← db.getMsgs
    db.update
  | none => pure ()

/-- Model of `router.post('/status')` (lines 369-396): `res.sendStatus(200)`
when the body succeeds, `res.sendStatus(500)` in the catch. -/
def routerPostStatus (body : StatusBody) (db : StatusDbOps) : Nat :=
  match statusProcessing body db with
  | .ok _ => 200
  | .error _ => 500

/-- Model of `VoiceAIApiServer.handleCallStatus` (src/core/VoiceAIApiServer.js
lines 180-196): `res.sendStatus(200)` on success and `res.sendStatus(200)`
again in the catch ("Always respond 200 to Twilio"). -/
def handleCallStatus (callStatus : Str) (completionOutcome : Except Unit Unit) : Nat :=
  match (if callStatus = "completed".data then completionOutcome else .ok ()) with
  | .ok _ => 200
  | .error _ => 200

end StatusRoute

/-!
## Transfer-intent handling (src/core/services/TenantAIService.js
`_analyzeResponse` with `VoiceAIService.handleCallInteraction` and
`_handleTransferRequest`, src/core/VoiceAIApiServer.js)
-/

namespace TenantAI

/-- Human-handoff keyword set of `_analyzeResponse` (line 375). -/
def transferKeywords : List Str :=
  ["transfer".data, "human".data, "representative".data, "agent".data,
   "speak to someone".data, "escalate".data]

/-- Intent keyword table of `_detectIntent` (lines 390-408). -/
def intentKeywords : List (Str × List Str) :=
  [("greeting".data, ["hello".data, "hi".data, "good morning".data, "good afternoon".data]),
   ("question".data, ["what".data, "how".data, "when".data, "where".data, "why".data, "?".data]),
   ("complaint".data, ["problem".data, "issue".data, "wrong".data, "error".data, "not working".data]),
   ("compliment".data, ["great".data, "excellent".data, "good job".data, "thank you".data]),
   ("goodbye".data, ["bye".data, "goodbye".data, "thank you".data, "have a good day".data])]

/-- Model of `_detectIntent`: the first intent whose keyword list matches the
lower-cased response, else `general`. -/
def detectIntent (response : Str) : Str :=
  let lowerResponse := JsStr.lower response
  match intentKeywords.find?
      (fun ik => ik.2.any (fun keyword => JsStr.includes lowerResponse keyword)) with
  | some ik => ik.1
  | none => "general".data

/-- Result of `_analyzeResponse` (the constant float `confidence: 0.8` is not
modelled). -/
structure ResponseAnalysis where
  transferRequested : Bool
  transferReason : Option Str
  intent : Str
  deriving Repr, DecidableEq

/-- Model of `TenantAIService._analyzeResponse` (lines 374-388). -/
def analyzeResponse (response : Str) : ResponseAnalysis :=
  let lowerResponse := JsStr.lower response
  let transferRequested :=
    transferKeywords.any (fun keyword => JsStr.includes lowerResponse keyword)
  { transferRequested := transferRequested
    transferReason :=
      if transferRequested then some ("Customer requested human assistance".data) else none
    intent := detectIntent response }

/-- Model of `String.prototype.trim()`. -/
def trim (s : Str) : Str :=
  ((s.dropWhile (fun c => c.isWhitespace)).reverse.dropWhile (fun c => c.isWhitespace)).reverse

/-- Result object of `TenantAIService.generateResponse` (lines 38-78), with
the raw LLM text supplied as an oracle. -/
structure AIResult where
  response : Str
  transferRequested : Bool
  transferReason : Option Str
  deriving Repr, DecidableEq

/-- Model of the result assembly of `generateResponse`: analyze the raw LLM
text for transfer intent, return the trimmed response with the analysis
flags. -/
def generateResponseResult (raw : Str) : AIResult :=
  let analysis := analyzeResponse raw
  { response := trim raw
    transferRequested := analysis.transferRequested
    transferReason := analysis.transferReason }

/-- Call-control responses of `handleCallInteraction`: the transfer
acknowledgement (`generateTransferTwiml`, which gathers the caller's preferred
callback time) versus the normal turn-taking response (`generateTwiml`). -/
inductive VoiceTwiml where
  | transfer (ttsUrl : Str)
  | normal (ttsUrl : Str)
  deriving Repr, DecidableEq

/-- Model of `TenantDatabase.addMessage`: INSERT appends one message row. -/
def addMessage (db : TenantDatabase) (conversationId role content : Str) : TenantDatabase :=
  { db with messages := db.messages ++
      [{ conversation_id := conversationId, role := role, content := content }] }

/-- Model of `TenantDatabase.createCallbackRequest`: INSERT appends one
callback-request row. -/
def createCallbackRequest (db : TenantDatabase) (conversationId tenantId : Str)
    (reason : Option Str) (cbStatus : Str) : TenantDatabase :=
  { db with callback_requests := db.callback_requests ++
      [{ conversation_id := conversationId, tenant_id := tenantId,
         reason := reason, cb_status := cbStatus }] }

/-- Model of the speech branch of `VoiceAIService.handleCallInteraction`
(src/core/VoiceAIApiServer.js lines 465-502) together with
`_handleTransferRequest` (lines 686-698): append the user turn, obtain the
AI result, append the assistant turn, then — iff a transfer was requested —
create one pending callback request and render the transfer TwiML instead of
the normal TwiML. -/
def handleCallInteractionSpeech (db : TenantDatabase) (tenantId callId speech raw ttsUrl : Str) :
    TenantDatabase × VoiceTwiml :=
  let db1 := addMessage db callId ("user".data) speech
  let aiResult := generateResponseResult raw
  let db2 := addMessage db1 callId ("assistant".data) aiResult.response
  if aiResult.transferRequested then
    (createCallbackRequest db2 callId tenantId aiResult.transferReason ("pending".data),
     .transfer ttsUrl)
  else
    (db2, .normal ttsUrl)

/-- Concrete tenant database for the C7 witness. -/
def dbC7 : TenantDatabase :=
  { tenantId := "acme".data, conversations := [], messages := [], callback_requests := [] }

end TenantAI

/-!
## ConfigurationManager._validateConfig (src/core/ConfigurationManager.js)

A tenant configuration bundle holds four sub-configs; a JS field read of a
missing sub-config is `Option.none`, and an empty string is falsy.  The
validator first reports the missing top-level fields by name, then checks
specific nested fields with one fixed message per sub-config.
-/

namespace ConfigMgr

/-- Twilio credential fields checked by the validator. -/
structure TwilioCredentials where
  accountSid : Str
  authToken : Str
  phoneNumber : Str
  deriving Repr, DecidableEq

/-- AI sub-config fields checked by the validator (`type`, `apiKey`). -/
structure AiConfigRec where
  type : Str
  apiKey : Str
  deriving Repr, DecidableEq

/-- Voice sub-config field checked by the validator. -/
structure VoiceConfigRec where
  voiceName : Str
  deriving Repr, DecidableEq

/-- Persona sub-config fields checked by the validator. -/
structure AgentConfigRec where
  name : Str
  prompt : Str
  deriving Repr, DecidableEq

/-- A tenant configuration bundle; a sub-config the caller did not supply is
`none`. -/
structure TenantConfig where
  twilioCredentials : Option TwilioCredentials
  aiConfig : Option AiConfigRec
  voiceConfig : Option VoiceConfigRec
  agentConfig : Option AgentConfigRec
  deriving Repr, DecidableEq

/-- Value of `required.filter(field => !config[field])` for
`required = ['twilioCredentials', 'aiConfig', 'voiceConfig', 'agentConfig']`,
unrolled over that literal list. -/
def missingOf (c : TenantConfig) : List Str :=
  (if c.twilioCredentials.isSome then [] else ["twilioCredentials".data]) ++
  (if c.aiConfig.isSome then [] else ["aiConfig".data]) ++
  (if c.voiceConfig.isSome then [] else ["voiceConfig".data]) ++
  (if c.agentConfig.isSome then [] else ["agentConfig".data])

/-- Model of `missing.join(', ')`. -/
def joinComma : List Str → Str
  | [] => []
  | [x] => x
  | x :: xs => x ++ ", ".data ++ joinComma xs

/-- Model of `ConfigurationManager._validateConfig` (lines 211-232).  The
final wildcard arm is unreachable: the guard guarantees every sub-config is
present. -/
def validateConfig (c : TenantConfig) : Except Str Unit :=
  let missing := missingOf c
  if missing ≠ [] then
    .error ("Missing required configuration fields: ".data ++ joinComma missing)
  else
    match c.twilioCredentials, c.aiConfig, c.voiceConfig, c.agentConfig with
    | some tw, some ai, some vc, some ag =>
      if tw.accountSid.isEmpty || tw.authToken.isEmpty || tw.phoneNumber.isEmpty then
        .error ("Invalid Twilio credentials".data)
      else if ai.type.isEmpty || ai.apiKey.isEmpty then
        .error ("Invalid AI configuration".data)
      else if vc.voiceName.isEmpty then
        .error ("Voice configuration must include voiceName".data)
      else if ag.name.isEmpty || ag.prompt.isEmpty then
        .error ("Invalid agent configuration".data)
      else .ok ()
    | _, _, _, _ =>
      .error ("Missing required configuration fields: ".data)

/-- Acceptance condition written from the spec's words: every required
sub-config is present and its required fields are non-empty. -/
def specAccepts (c : TenantConfig) : Bool :=
  match c.twilioCredentials, c.aiConfig, c.voiceConfig, c.agentConfig with
  | some tw, some ai, some vc, some ag =>
    !tw.accountSid.isEmpty && !tw.authToken.isEmpty && !tw.phoneNumber.isEmpty &&
    !ai.type.isEmpty && !ai.apiKey.isEmpty && !vc.voiceName.isEmpty &&
    !ag.name.isEmpty && !ag.prompt.isEmpty
  | _, _, _, _ => false

/-- Bundle with two missing sub-configs, for the C8 witness. -/
def cfgMissingEx : TenantConfig :=
  { twilioCredentials := none,
    aiConfig := none,
    voiceConfig := some { voiceName := "aura".data },
    agentConfig := some { name := "Sarah".data, prompt := "p".data } }

/-- Complete bundle, for the C8 witness. -/
def cfgGoodEx : TenantConfig :=
  { twilioCredentials := some { accountSid := "AC1".data, authToken := "tok".data,
                                phoneNumber := "+1555".data },
    aiConfig := some { type := "openai".data, apiKey := "sk".data },
    voiceConfig := some { voiceName := "aura".data },
    agentConfig := some { name := "Sarah".data, prompt := "p".data } }

end ConfigMgr

/-!
## ConfigurationManager._encrypt (src/core/ConfigurationManager.js lines 278-289)

The source draws `iv = crypto.randomBytes(16)` but creates the cipher with
`crypto.createCipher(algorithm, this.encryptionKey)` — the deprecated API that
derives the actual key and internal IV from the password alone.  The cipher
therefore receives only the key and the plaintext; the random `iv` enters
only the serialized output `${iv}:${authTag}:${encrypted}` (and `_decrypt`
parses it back with `text.split(':')` into an `iv` variable that
`createDecipher` likewise never consumes).  The embedding makes the cipher an
explicit function of exactly the inputs the source hands it: the key and the
text; the hex string of the random bytes is the `ivHex` oracle.
-/

namespace ConfigMgr

/-- Model of `ConfigurationManager._encrypt`: `cipher key text` yields the
pair (encrypted hex, auth-tag hex) produced by `cipher.update/final` and
`cipher.getAuthTag()`; the result is the template string
`${iv.toString('hex')}:${authTag.toString('hex')}:${encrypted}`. -/
def _encrypt (cipher : Str → Str → Str × Str) (encryptionKey ivHex text : Str) : Str :=
  let encrypted := (cipher encryptionKey text).1
  let authTag := (cipher encryptionKey text).2
  ivHex ++ (":".data ++ (authTag ++ (":".data ++ encrypted)))

/-- The `encrypted` component that `_decrypt` destructures out of the stored
string: `const [ivHex, authTagHex, encrypted] = text.split(':')`. -/
def encryptedComponent (stored : Str) : Option Str :=
  (JsStr.splitChar ':' stored).get? 2

/-- Toy cipher used only to instantiate the C9 theorem at concrete inputs. -/
def cipherEx : Str → Str → Str × Str := fun key text => (text ++ key, "ab12".data)

end ConfigMgr

/-!
## Call completion and analytics (src/core/VoiceAIApiServer.js
handleCallCompletion, src/core/TenantDatabase.js getAnalytics,
src/unnamed/part_010 router.post('/status'))
-/

namespace Completion

/-- Model of `TenantDatabase.updateConversation`:
`UPDATE conversations SET <fields> WHERE id = ? AND tenant_id = ?`, with the
SET clause given as a row transformer. -/
def updateConversation (db : TenantDatabase) (conversationId : Str)
    (setClause : ConvRow → ConvRow) : TenantDatabase :=
  { db with conversations := db.conversations.map (fun r =>
      if r.id = conversationId ∧ r.tenant_id = db.tenantId then setClause r else r) }

/-- Model of `VoiceAIService.handleCallCompletion` (lines 586-634) for the
call's tenant database: first update stamps status/completion/duration/
recording/consolidated transcription; when the conversation has messages, a
second update stores the analysis, its rating, and
`success: analysis.rating >= 7`.  The JSON texts and the completion timestamp
are oracles; `analysisRating` is the rating of the `analyzeConversation`
result. -/
def handleCallCompletion (db : TenantDatabase) (callId : Str)
    (callDuration : Option Int) (recordingUrl : Option Str)
    (nowIso transcriptionJson analysisJson : Str) (analysisRating : Int) :
    TenantDatabase :=
  let messages := db.getMessages callId
  let db1 := updateConversation db callId (fun r =>
    { r with conv_status := "completed".data
             completed_at := some nowIso
             duration := callDuration
             recording_url := recordingUrl
             transcription := some transcriptionJson })
  if messages.length > 0 then
    updateConversation db1 callId (fun r =>
      { r with analysis := some analysisJson
               rating := some analysisRating
               success := decide (analysisRating ≥ 7) })
  else db1

/-- Model of the `successful_calls` aggregate of `TenantDatabase.getAnalytics`
(lines 183-198): `COUNT(CASE WHEN rating >= 7 THEN 1 END)` over
`WHERE tenant_id = ?` (a `NULL` rating never satisfies `rating >= 7`). -/
def getAnalyticsSuccessfulCalls (db : TenantDatabase) : Nat :=
  (db.conversations.filter (fun r => r.tenant_id = db.tenantId)).countP
    (fun r => match r.rating with
              | some v => decide (v ≥ 7)
              | none => false)

/-- Conversation with a stored rating of at least 7 (the spec-side reading of
"conversations with rating >= 7"). -/
def ratedSuccessful (r : ConvRow) : Prop :=
  ∃ v, r.rating = some v ∧ 7 ≤ v

instance (r : ConvRow) : Decidable (ratedSuccessful r) :=
  match h : r.rating with
  | some v =>
    decidable_of_iff (7 ≤ v) (by
      constructor
      · intro hv
        exact ⟨v, h, hv⟩
      · rintro ⟨w, hw, hlew⟩
        rw [h] at hw
        injection hw with hw'
        rwa [hw'])
  | none =>
    isFalse (by
      rintro ⟨w, hw, _⟩
      rw [h] at hw
      exact Option.noConfusion hw)

/-- Number of the tenant's conversations whose rating is at least 7, written
from the spec's words. -/
def specSuccessfulCount (db : TenantDatabase) : Nat :=
  (db.conversations.filter
    (fun r => decide (r.tenant_id = db.tenantId ∧ ratedSuccessful r))).length

end Completion

namespace StatusRoute

/-- Update set built by `router.post('/status')` (src/unnamed/part_010 lines
375-386): always the recording URL; on `completed` also the consolidated
transcription, the analysis JSON, its rating, and
`success: analysis.rating >= 7`. -/
structure ConvUpdates where
  recording_url : Option Str
  transcription : Option Str := none
  analysis : Option Str := none
  rating : Option Int := none
  success : Option Bool := none
  deriving Repr, DecidableEq

/-- The updates object the `/status` route passes to `Conversation.update`. -/
def statusUpdates (body : StatusBody) (transcriptionText analysisJson : Str)
    (analysisRating : Int) : ConvUpdates :=
  if body.CallStatus = "completed".data then
    { recording_url := body.RecordingUrl
      transcription := some transcriptionText
      analysis := some analysisJson
      rating := some analysisRating
      success := some (decide (analysisRating ≥ 7)) }
  else
    { recording_url := body.RecordingUrl }

end StatusRoute

namespace Completion

/-- Concrete tenant database for the C10 witness: one conversation with one
message. -/
def dbC10 : TenantDatabase :=
  { tenantId := "acme".data
    conversations := [{ id := "c1".data, tenant_id := "acme".data }]
    messages := [{ conversation_id := "c1".data, role := "user".data,
                   content := "hello".data }]
    callback_requests := [] }

/-- Row stored for `c1` after completion with an analysis rating of 8. -/
def dbC10after : TenantDatabase :=
  handleCallCompletion dbC10 ("c1".data) (some 30) (some ("http://r".data))
    ("2026-01-01".data) ("[]".data) ("a-json".data) 8

end Completion

/-! ## Claims: theorems, counterexamples and witnesses, with supporting lemmas -/

namespace JsStr

theorem splitChar_sep_cons (sep : Char) (l : Str) :
    splitChar sep (sep :: l) = [] :: splitChar sep l := by
  simp [splitChar]

theorem splitChar_ne_nil (sep : Char) (l : Str) : splitChar sep l ≠ [] := by
  induction l with
  | nil => simp [splitChar]
  | cons c cs ih =>
    by_cases h : c = sep
    · simp [splitChar, h]
    · simp only [splitChar, if_neg h]
      cases hs : splitChar sep cs with
      | nil => exact absurd hs ih
      | cons s ss => simp

theorem splitChar_append_no_sep (sep : Char) (xs ys : Str) (h : sep ∉ xs) :
    splitChar sep (xs ++ sep :: ys) = xs :: splitChar sep ys := by
  induction xs with
  | nil => simp [splitChar]
  | cons c cs ih =>
    have hc : c ≠ sep := fun hc => h (hc ▸ List.mem_cons_self c cs)
    have hcs : sep ∉ cs := fun hm => h (List.mem_cons_of_mem c hm)
    simp only [List.cons_append, splitChar, if_neg hc]
    rw [show cs.append (sep :: ys) = cs ++ sep :: ys from rfl, ih hcs]

theorem splitChar_no_sep (sep : Char) (xs : Str) (h : sep ∉ xs) :
    splitChar sep xs = [xs] := by
  induction xs with
  | nil => simp [splitChar]
  | cons c cs ih =>
    have hc : c ≠ sep := fun hc => h (hc ▸ List.mem_cons_self c cs)
    have hcs : sep ∉ cs := fun hm => h (List.mem_cons_of_mem c hm)
    simp only [splitChar, if_neg hc, ih hcs]

end JsStr

/-- C1: for tenants `A ≠ B`, a call created under `A` is never retrievable
through `B`'s identifier path.  `dbB` is tenant `B`'s database; the hypothesis
says every row for `callId` that could sit in it belongs to `A` (in the real
system `B`'s separate database file contains no row for `A`'s call at all, so
the hypothesis also covers the hypothetical contaminated case).  Both the
scoped `getConversation` lookup and `getCallResult` yield not-found, never
`A`'s data. -/
theorem c1_cross_tenant_isolation (dbB : TenantDatabase) (A B callId : Str)
    (hT : dbB.tenantId = B) (hAB : A ≠ B)
    (hrows : ∀ r ∈ dbB.conversations, r.id = callId → r.tenant_id = A) :
    dbB.getConversation callId = none ∧
    getCallResult dbB B callId = .error ("Call not found or access denied".data) := by
  have hfind : dbB.getConversation callId = none := by
    unfold TenantDatabase.getConversation
    apply List.find?_eq_none.mpr
    intro r hr
    by_cases hid : r.id = callId
    · have := hrows r hr hid
      simp [hid, this, hT]
      exact hAB
    · simp [hid]
  refine ⟨hfind, ?_⟩
  unfold getCallResult
  rw [hfind]

theorem c1_cross_tenant_isolation_witness :
    dbBexample.getConversation ("c1".data) = none ∧
    getCallResult dbBexample ("B".data) ("c1".data) =
      .error ("Call not found or access denied".data) :=
  c1_cross_tenant_isolation dbBexample ("A".data) ("B".data) ("c1".data)
    rfl (by decide) (by intro r hr _; simp [dbBexample] at hr; simp [hr])

namespace Calls

theorem consentAgreed_iff (speechResult : Option Str) :
    consentAgreed speechResult = true ↔
      ∃ k ∈ consentKeywords,
        JsStr.includes (JsStr.lower (speechResult.getD [])) k = true := by
  simp only [consentAgreed, consentKeywords, Bool.or_eq_true, List.mem_cons,
    List.mem_singleton, List.not_mem_nil]
  constructor
  · rintro (((h | h) | h) | h)
    · exact ⟨"yes".data, by simp, h⟩
    · exact ⟨"agree".data, by simp, h⟩
    · exact ⟨"okay".data, by simp, h⟩
    · exact ⟨"sure".data, by simp, h⟩
  · rintro ⟨k, hk, hinc⟩
    simp only [List.mem_cons, List.not_mem_nil, or_false] at hk
    rcases hk with rfl | rfl | rfl | rfl
    · exact Or.inl (Or.inl (Or.inl hinc))
    · exact Or.inl (Or.inl (Or.inr hinc))
    · exact Or.inl (Or.inr hinc)
    · exact Or.inr hinc

/-- C2 (amended): the consent classifier is affirmative iff the lower-cased
utterance contains one of `yes`, `agree`, `okay`, `sure`; on affirmative the
greeting is appended as the (first) assistant turn and the normal gather
response is rendered; on negative/unparseable the handler ends the call with
the goodbye markup and leaves the call state exactly unchanged — in
particular, no status transition (to `ACTIVE`, `FAILED` or anything else)
happens in either branch: the handler writes no status at all, and the
underlying `conversations` schema has no status column. -/
theorem c2_consent_response (baseUrl : Str) (agent : AgentRec) (s : CallState)
    (e : WebhookEvent) (hconsent : e.consentQuery = true)
    (hconv : s.conversation.isSome) (hmsgs : s.messages = []) :
    (consentAgreed e.speechResult = true ↔
      ∃ k ∈ consentKeywords,
        JsStr.includes (JsStr.lower (e.speechResult.getD [])) k = true) ∧
    (consentAgreed e.speechResult = true →
      (handleAgentCall baseUrl agent s e).1.messages =
          [{ role := "assistant".data, content := greetingFor agent }] ∧
      (handleAgentCall baseUrl agent s e).2 =
          .gather (some e.ttsUrl) (twimlActionUrl baseUrl agent)) ∧
    (consentAgreed e.speechResult = false →
      (handleAgentCall baseUrl agent s e).1 = s ∧
      (handleAgentCall baseUrl agent s e).2 = .playHangup e.ttsUrl) := by
  obtain ⟨c, hc⟩ := Option.isSome_iff_exists.mp hconv
  refine ⟨consentAgreed_iff e.speechResult, ?_, ?_⟩
  · intro hag
    simp [handleAgentCall, hconsent, hag, hmsgs, hc]
  · intro hag
    constructor
    · simp only [handleAgentCall, hconsent, hag, hc, if_true, Bool.false_eq_true, if_false]
      rw [← hc]
    · simp [handleAgentCall, hconsent, hag, hc]

theorem c2_consent_response_witness :
    ((handleAgentCall ("http://b".data) agentEx consentStateEx eventYesEx).1.messages =
        [{ role := "assistant".data, content := greetingFor agentEx }]) ∧
    ((handleAgentCall ("http://b".data) agentEx consentStateEx eventNoEx).1 =
        consentStateEx) :=
  ⟨((c2_consent_response ("http://b".data) agentEx consentStateEx eventYesEx
      rfl (by decide) rfl).2.1 (by decide)).1,
   ((c2_consent_response ("http://b".data) agentEx consentStateEx eventNoEx
      rfl (by decide) rfl).2.2 (by decide)).1⟩

/-- C2 counterexample to the claim as stated: in the very scenario the claim
describes, the negative branch changes nothing at all (the whole call state is
equal before and after, so no transition to `FAILED` occurs), and the
affirmative branch changes only the transcript and the stored audio URL (no
transition to `ACTIVE` occurs); the row type, taken from the source schema,
has no status field that could be written. -/
theorem c2_no_status_transition_counterexample :
    (handleAgentCall ("http://b".data) agentEx consentStateEx eventNoEx).1 =
        consentStateEx ∧
    (handleAgentCall ("http://b".data) agentEx consentStateEx eventYesEx).1 =
      { conversation := some { convEx with audio_url := some eventYesEx.ttsUrl }
        messages := [{ role := "assistant".data, content := greetingFor agentEx }]
        callbacks := [] } := by
  constructor <;> decide

/-- C3 counterexample to the claim as stated: a call whose consent response is
classified negative is not barred from later assistant turns, because the
negative classification is never persisted (no status is written); a
subsequent consent-response webhook for the same call id whose utterance is
classified affirmative gets through the gate and appends the greeting as an
assistant turn. -/
theorem c3_consent_gating_counterexample :
    consentAgreed eventNoEx.speechResult = false ∧
    ((runTrace ("http://b".data) agentEx
        { conversation := none, messages := [], callbacks := [] }
        [eventNoEx, eventYesEx]).messages.any
          (fun m => m.role = "assistant".data)) = true := by
  constructor <;> decide

/-- C3 (amended): as long as no webhook for the call is a consent response
classified affirmative, no assistant turn is ever appended: the transcript of
a call that has no (or empty) transcript stays empty through every such
webhook, so in particular a call whose consent responses were all classified
negative/unparseable never gains an assistant turn while no affirmative
consent response arrives. -/
theorem c3_consent_gating (baseUrl : Str) (agent : AgentRec) (s : CallState)
    (es : List WebhookEvent) (hmsgs : s.messages = [])
    (hno : ∀ e ∈ es, e.consentQuery = true → consentAgreed e.speechResult = false) :
    (runTrace baseUrl agent s es).messages = [] := by
  induction es generalizing s with
  | nil => simpa [runTrace] using hmsgs
  | cons e es ih =>
    have hstep : ((handleAgentCall baseUrl agent s e).1).messages = [] := by
      by_cases hq : e.consentQuery = true
      · have hag := hno e (List.mem_cons_self e es) hq
        cases hcv : s.conversation with
        | none => simp [handleAgentCall, hq, hag, hmsgs, hcv]
        | some c => simp [handleAgentCall, hq, hag, hmsgs, hcv]
      · have hq' : e.consentQuery = false := by
          cases h : e.consentQuery
          · rfl
          · exact absurd h hq
        cases hcv : s.conversation with
        | none => simp [handleAgentCall, hq', hcv, hmsgs]
        | some c => simp [handleAgentCall, hq', hcv, hmsgs]
    have hrest : ∀ e' ∈ es, e'.consentQuery = true →
        consentAgreed e'.speechResult = false :=
      fun e' he' => hno e' (List.mem_cons_of_mem e he')
    simpa [runTrace] using ih ((handleAgentCall baseUrl agent s e).1) hstep hrest

theorem c3_consent_gating_witness :
    (runTrace ("http://b".data) agentEx
      { conversation := none, messages := [], callbacks := [] }
      [eventNoEx, eventMidCallEx]).messages = [] :=
  c3_consent_gating ("http://b".data) agentEx
    { conversation := none, messages := [], callbacks := [] }
    [eventNoEx, eventMidCallEx] rfl (by decide)

end Calls

namespace TenantAI

/-- C4 counterexample to the claim as stated, at the concrete transcript
`"user: hello"`: when the LLM-based analysis fails (throws), the function
does not return the fixed neutral default — it returns sentiment `error` and
categories `[error]` instead of `neutral` / `[general]`; and when the LLM
succeeds but reports a rating of 15, that rating is returned unclamped,
outside [1,10]. -/
theorem c4_analysis_default_counterexample :
    (analyzeConversation .llmError ("user: hello".data)).sentiment ≠ "neutral".data ∧
    (analyzeConversation .llmError ("user: hello".data)).categories ≠ ["general".data] ∧
    (analyzeConversation (.parsed { rating := some 15 }) ("user: hello".data)).rating = 15 := by
  refine ⟨?_, ?_, ?_⟩ <;> decide

/-- C4 (amended): `analyzeConversation` is total (every failure of the LLM
call or of JSON parsing is caught and mapped to a result record — it never
throws); malformed LLM output yields exactly the neutral default (rating 5,
sentiment neutral, categories [general], resolved false); an LLM failure
yields the error record (rating 1, sentiment error, categories [error],
resolved false), not the neutral default; both fallback ratings lie in
[1,10], while a successfully parsed rating is passed through unclamped; and
the keyword category fallback is a pure function of the transcript, so two
invocations on the same transcript agree. -/
theorem c4_analysis_fallbacks (transcript : Str) :
    analyzeConversation .parseError transcript =
      { rating := 5, sentiment := "neutral".data, topics := ["general inquiry".data],
        resolved := false, improvements := ["Unable to analyze".data],
        categories := ["general".data] } ∧
    analyzeConversation .llmError transcript =
      { rating := 1, sentiment := "error".data, topics := ["analysis failed".data],
        resolved := false, improvements := ["Analysis error".data],
        categories := ["error".data] } ∧
    (1 ≤ (analyzeConversation .parseError transcript).rating ∧
      (analyzeConversation .parseError transcript).rating ≤ 10) ∧
    (1 ≤ (analyzeConversation .llmError transcript).rating ∧
      (analyzeConversation .llmError transcript).rating ≤ 10) ∧
    (∀ p : ParsedAnalysis,
      (analyzeConversation (.parsed p) transcript).rating = jsOrInt p.rating 5) ∧
    categorizeConversation transcript = categorizeConversation transcript := by
  refine ⟨rfl, rfl, by norm_num [analyzeConversation], by norm_num [analyzeConversation],
    fun p => rfl, rfl⟩

end TenantAI

namespace Webhook

/-- List-level helpers mirroring the URL machinery. -/
theorem takeWhile_all (p : Char → Bool) (xs : Str) (h : ∀ x ∈ xs, p x = true) :
    xs.takeWhile p = xs := by
  induction xs with
  | nil => rfl
  | cons a as ih =>
    have ha := h a (List.mem_cons_self a as)
    simp [List.takeWhile_cons, ha, ih (fun x hx => h x (List.mem_cons_of_mem a hx))]

theorem dropWhile_all (p : Char → Bool) (xs : Str) (h : ∀ x ∈ xs, p x = true) :
    xs.dropWhile p = [] := by
  induction xs with
  | nil => rfl
  | cons a as ih =>
    have ha := h a (List.mem_cons_self a as)
    simp only [List.dropWhile_cons, ha, if_true, ih (fun x hx => h x (List.mem_cons_of_mem a hx))]

theorem takeWhile_append_cons (p : Char → Bool) (xs : Str) (y : Char) (ys : Str)
    (hxs : ∀ x ∈ xs, p x = true) (hy : p y = false) :
    (xs ++ y :: ys).takeWhile p = xs := by
  induction xs with
  | nil => simp [List.takeWhile_cons, hy]
  | cons a as ih =>
    have ha := hxs a (List.mem_cons_self a as)
    simp [List.cons_append, List.takeWhile_cons, ha,
      ih (fun x hx => hxs x (List.mem_cons_of_mem a hx))]

theorem dropWhile_append_cons (p : Char → Bool) (xs : Str) (y : Char) (ys : Str)
    (hxs : ∀ x ∈ xs, p x = true) (hy : p y = false) :
    (xs ++ y :: ys).dropWhile p = y :: ys := by
  induction xs with
  | nil => simp [List.dropWhile_cons, hy]
  | cons a as ih =>
    have ha := hxs a (List.mem_cons_self a as)
    simp only [List.cons_append, List.dropWhile_cons, ha, if_true,
      ih (fun x hx => hxs x (List.mem_cons_of_mem a hx))]

theorem ne_of_urlSafeChar (x : Char) (hx : urlSafeChar x = true) (bad : Char)
    (hbad : urlSafeChar bad = false) : (x != bad) = true := by
  cases h : x == bad
  · simp [bne, h]
  · have hxb : x = bad := eq_of_beq h
    rw [hxb] at hx
    rw [hx] at hbad
    exact absurd hbad (by simp)

theorem not_mem_of_urlSafe (s : Str) (h : urlSafe s = true) (bad : Char)
    (hbad : urlSafeChar bad = false) : bad ∉ s := by
  intro hm
  have := (List.all_eq_true.mp h) bad hm
  rw [this] at hbad
  exact absurd hbad (by simp)

theorem mem_safe_ne (s : Str) (h : urlSafe s = true) (bad : Char)
    (hbad : urlSafeChar bad = false) : ∀ x ∈ s, (x != bad) = true := by
  intro x hx
  exact ne_of_urlSafeChar x ((List.all_eq_true.mp h) x hx) bad hbad

theorem afterDoubleSlash_base (r : Str) :
    afterDoubleSlash (webhookBaseUrl ++ r) = "your-domain.com".data ++ r := rfl

theorem pathAndQuery_of_clean (p : Str) (hp : ∀ x ∈ p, (x != '?') = true) :
    pathAndQuery (webhookBaseUrl ++ '/' :: p) = ('/' :: p, none) := by
  have hall : ∀ x ∈ ('/' :: p), (x != '?') = true := by
    intro x hx
    rcases List.mem_cons.mp hx with rfl | hx
    · decide
    · exact hp x hx
  simp only [pathAndQuery, afterDoubleSlash_base]
  rw [dropWhile_append_cons _ _ _ _ (by decide) (by decide)]
  rw [takeWhile_all _ _ hall, dropWhile_all _ _ hall]

theorem pathAndQuery_of_query (p q : Str) (hp : ∀ x ∈ p, (x != '?') = true) :
    pathAndQuery (webhookBaseUrl ++ '/' :: (p ++ '?' :: q)) = ('/' :: p, some q) := by
  have hall : ∀ x ∈ ('/' :: p), (x != '?') = true := by
    intro x hx
    rcases List.mem_cons.mp hx with rfl | hx
    · decide
    · exact hp x hx
  simp only [pathAndQuery, afterDoubleSlash_base]
  rw [dropWhile_append_cons _ _ _ _ (by decide) (by decide)]
  rw [show ('/' :: (p ++ '?' :: q)) = (('/' :: p) ++ '?' :: q) from rfl]
  rw [takeWhile_append_cons _ _ _ _ hall (by decide)]
  rw [dropWhile_append_cons _ _ _ _ hall (by decide)]
  rfl

theorem split_call_path (t c : Str) (ht : '/' ∉ t) (hc : '/' ∉ c) :
    JsStr.splitChar '/'
      ('/' :: ("api".data ++ '/' :: ("voice".data ++ '/' ::
        (t ++ '/' :: ("calls".data ++ '/' :: c))))) =
      [[], "api".data, "voice".data, t, "calls".data, c] := by
  rw [JsStr.splitChar_sep_cons]
  rw [JsStr.splitChar_append_no_sep _ _ _ (by decide)]
  rw [JsStr.splitChar_append_no_sep _ _ _ (by decide)]
  rw [JsStr.splitChar_append_no_sep _ _ _ ht]
  rw [JsStr.splitChar_append_no_sep _ _ _ (by decide)]
  rw [JsStr.splitChar_no_sep _ _ hc]

theorem searchParamGet_action (a : Str) (ha : urlSafe a = true) :
    searchParamGet (some ("action=".data ++ a)) ("action".data) = some a := by
  have hamp : '&' ∉ "action=".data ++ a := by
    intro hm
    rcases List.mem_append.mp hm with h | h
    · exact absurd h (by decide)
    · exact not_mem_of_urlSafe a ha '&' (by decide) h
  have heq : '=' ∉ a := not_mem_of_urlSafe a ha '=' (by decide)
  have hsplit : JsStr.splitChar '=' ("action=".data ++ a) = ["action".data, a] := by
    have h2 : JsStr.splitChar '=' ("action".data ++ '=' :: a) =
        "action".data :: JsStr.splitChar '=' a :=
      JsStr.splitChar_append_no_sep _ _ _ (by decide)
    rw [JsStr.splitChar_no_sep _ _ heq] at h2
    exact h2
  simp only [searchParamGet]
  rw [JsStr.splitChar_no_sep _ _ hamp]
  simp only [List.findSome?]
  rw [show JsStr.splitChar '='
        (['a', 'c', 't', 'i', 'o', 'n', '='] ++ a) =
      ["action".data, a] from hsplit]
  simp

theorem path_chars_clean (t c : Str) (hts : urlSafe t = true) (hcs : urlSafe c = true) :
    ∀ x ∈ ("api/voice/".data ++ (t ++ ("/calls/".data ++ c))), (x != '?') = true := by
  have hlit1 : ∀ y ∈ "api/voice/".data, (y != '?') = true := by decide
  have hlit2 : ∀ y ∈ "/calls/".data, (y != '?') = true := by decide
  intro x hx
  rcases List.mem_append.mp hx with h | h
  · exact hlit1 x h
  · rcases List.mem_append.mp h with h | h
    · exact mem_safe_ne t hts '?' (by decide) x h
    · rcases List.mem_append.mp h with h | h
      · exact hlit2 x h
      · exact mem_safe_ne c hcs '?' (by decide) x h

theorem parse_eval (url : Str) (pn : Str) (q : Option Str)
    (hpq : pathAndQuery url = (pn, q))
    (parts : List Str) (hparts : JsStr.splitChar '/' pn = parts) :
    parseWebhookRequest url =
      (if parts.get? 1 = some ("api".data) ∧ parts.get? 2 = some ("voice".data) then
        if parts.get? 4 = some ("calls".data) ∧ jsTruthyStrOpt (parts.get? 5) = true then
          .ok { tenantId := parts.get? 3, callId := parts.get? 5,
                endpoint := some ("call".data),
                action := searchParamGet q ("action".data) }
        else
          .ok { tenantId := parts.get? 3, endpoint := parts.get? 4,
                callId := none, action := none }
      else .error ("Invalid webhook URL format: ".data ++ url)) := by
  simp only [parseWebhookRequest, hpq, hparts]

/-- C5 (amended): the round-trip holds — for every configured tenant and every
non-empty tenant id, call id (and optional non-empty action) made of URL-safe
characters, parsing the generated webhook URL returns exactly the tenant id,
call id and action — and a URL whose first two path segments are not
`api`/`voice` is rejected with the typed parse error.  (What the original
claim gets wrong, witnessed separately: a URL that starts with `/api/voice`
but lacks the remaining segments is not rejected; it yields a result object
with absent fields.) -/
theorem c5_webhook_url_roundtrip (whs : List Str) (t c : Str) (action : Option Str)
    (ht : t ∈ whs) (hts : urlSafe t = true)
    (hcn : c ≠ []) (hcs : urlSafe c = true)
    (hact : action = none ∨ ∃ a, action = some a ∧ a ≠ [] ∧ urlSafe a = true) :
    (∃ url, generateCallWebhookUrl whs t c action = .ok url ∧
      parseWebhookRequest url = .ok
        { tenantId := some t, callId := some c,
          endpoint := some ("call".data), action := action }) ∧
    (∀ url2 : Str,
      ¬ ((JsStr.splitChar '/' (pathAndQuery url2).1).get? 1 = some ("api".data) ∧
         (JsStr.splitChar '/' (pathAndQuery url2).1).get? 2 = some ("voice".data)) →
      parseWebhookRequest url2 = .error ("Invalid webhook URL format: ".data ++ url2)) := by
  have ht' : '/' ∉ t := not_mem_of_urlSafe t hts '/' (by decide)
  have hc' : '/' ∉ c := not_mem_of_urlSafe c hcs '/' (by decide)
  have hce : c.isEmpty = false := by
    cases c with
    | nil => exact absurd rfl hcn
    | cons _ _ => rfl
  have hp := path_chars_clean t c hts hcs
  have hsplit : JsStr.splitChar '/'
      ('/' :: ("api/voice/".data ++ (t ++ ("/calls/".data ++ c)))) =
      [[], "api".data, "voice".data, t, "calls".data, c] := split_call_path t c ht' hc'
  constructor
  · rcases hact with rfl | ⟨a, rfl, han, has⟩
    · refine ⟨webhookBaseUrl ++ '/' ::
        ("api/voice/".data ++ (t ++ ("/calls/".data ++ c))), ?_, ?_⟩
      · simp only [generateCallWebhookUrl, if_pos ht]
        simp only [List.append_assoc, List.append_nil]
        rfl
      · have hpq := pathAndQuery_of_clean
          ("api/voice/".data ++ (t ++ ("/calls/".data ++ c))) hp
        rw [parse_eval _ _ _ hpq _ hsplit]
        simp [List.get?, jsTruthyStrOpt, hce, searchParamGet]
    · have hae : a.isEmpty = false := by
        cases a with
        | nil => exact absurd rfl han
        | cons _ _ => rfl
      refine ⟨webhookBaseUrl ++
        ("/api/voice/".data ++ (t ++ ("/calls/".data ++ (c ++ ("?action=".data ++ a))))),
        ?_, ?_⟩
      · simp only [generateCallWebhookUrl, if_pos ht, hae, Bool.false_eq_true, if_false]
        simp only [List.append_assoc]
      · have hurl : webhookBaseUrl ++
            ("/api/voice/".data ++ (t ++ ("/calls/".data ++ (c ++ ("?action=".data ++ a))))) =
            webhookBaseUrl ++ '/' ::
              (("api/voice/".data ++ (t ++ ("/calls/".data ++ c))) ++
                '?' :: ("action=".data ++ a)) := by
          have h1 : ("api/voice/".data ++ (t ++ ("/calls/".data ++ c))) ++
              '?' :: ("action=".data ++ a) =
              "api/voice/".data ++ (t ++ ("/calls/".data ++
                (c ++ '?' :: ("action=".data ++ a)))) := by
            simp [List.append_assoc]
          rw [h1]
          rfl
        rw [hurl]
        have hpq := pathAndQuery_of_query
          ("api/voice/".data ++ (t ++ ("/calls/".data ++ c)))
          ("action=".data ++ a) hp
        rw [parse_eval _ _ _ hpq _ hsplit]
        simp [List.get?, jsTruthyStrOpt, hce]
        exact searchParamGet_action a has
  · intro url2 hbad
    simp only [parseWebhookRequest]
    rw [if_neg hbad]

theorem c5_webhook_url_roundtrip_witness :
    ∃ url, generateCallWebhookUrl ["acme-7".data] ("acme-7".data) ("call-42".data)
        (some ("transfer".data)) = .ok url ∧
      parseWebhookRequest url = .ok
        { tenantId := some ("acme-7".data), callId := some ("call-42".data),
          endpoint := some ("call".data), action := some ("transfer".data) } :=
  (c5_webhook_url_roundtrip ["acme-7".data] ("acme-7".data) ("call-42".data)
    (some ("transfer".data)) (by decide) (by decide) (by decide) (by decide)
    (Or.inr ⟨"transfer".data, rfl, by decide, by decide⟩)).1

/-- C5 counterexample to the rejection half of the claim as stated: the URL
`https://your-domain.com/api/voice` has a path that does not match the
expected shape (`/api/voice/{tenantId}/calls/{callId}` or
`/api/voice/{tenantId}/{endpoint}`), yet `parseWebhookRequest` does not fail —
it returns a result object whose tenantId, callId, endpoint and action are all
absent (`undefined`), i.e. partial data rather than a parse error. -/
theorem c5_parse_partial_data_counterexample :
    parseWebhookRequest ("https://your-domain.com/api/voice".data) =
      .ok { tenantId := none, callId := none, endpoint := none, action := none } := rfl

end Webhook

namespace StatusRoute

/-- C6: the claim (always acknowledge the vendor with a success status, even
on internal failure) is the stated vendor contract, and
`VoiceAIApiServer.handleCallStatus` honours it for every outcome — but the
`/status` route of src/unnamed/part_010 does not: when its internal
processing throws (here: `Conversation.findByCallSid` fails), it answers 500,
not a success status.  The code contradicts the spec and the codebase's own
"Always respond 200 to Twilio" convention, so this is a code bug at that
route. -/
theorem c6_status_callback_acknowledgement :
    routerPostStatus
      { CallSid := "CA9".data, CallStatus := "completed".data, RecordingUrl := none }
      { findByCallSid := .error (), getMsgs := .ok [], update := .ok () } = 500 ∧
    (∀ (cs : Str) (o : Except Unit Unit), handleCallStatus cs o = 200) := by
  constructor
  · rfl
  · intro cs o
    unfold handleCallStatus
    cases hif : (if cs = "completed".data then o else Except.ok ()) <;> simp [hif]

end StatusRoute

namespace TenantAI

/-- C7: the transfer signal fires iff the lower-cased assistant response
contains one of the human-handoff keywords, and whenever it fires the engine
creates exactly one callback request with status `pending` for that
conversation and renders the transfer-acknowledgement prompt (which asks for
the preferred callback time) instead of the normal turn-taking prompt. -/
theorem c7_transfer_creates_pending_callback (db : TenantDatabase)
    (tenantId callId speech raw ttsUrl : Str)
    (h : (analyzeResponse raw).transferRequested = true) :
    ((analyzeResponse raw).transferRequested = true ↔
      ∃ k ∈ transferKeywords, JsStr.includes (JsStr.lower raw) k = true) ∧
    (handleCallInteractionSpeech db tenantId callId speech raw ttsUrl).1.callback_requests =
      db.callback_requests ++
        [{ conversation_id := callId, tenant_id := tenantId,
           reason := some ("Customer requested human assistance".data),
           cb_status := "pending".data }] ∧
    (handleCallInteractionSpeech db tenantId callId speech raw ttsUrl).2 = .transfer ttsUrl := by
  have hiff : (analyzeResponse raw).transferRequested = true ↔
      ∃ k ∈ transferKeywords, JsStr.includes (JsStr.lower raw) k = true := by
    simp [analyzeResponse, List.any_eq_true]
  have hflag : (generateResponseResult raw).transferRequested = true := h
  have hreason : (generateResponseResult raw).transferReason =
      some ("Customer requested human assistance".data) := by
    simp only [generateResponseResult, analyzeResponse] at h ⊢
    simp [h]
  refine ⟨hiff, ?_, ?_⟩
  · simp [handleCallInteractionSpeech, hflag, hreason, createCallbackRequest, addMessage]
  · simp [handleCallInteractionSpeech, hflag]

theorem c7_transfer_creates_pending_callback_witness :
    (handleCallInteractionSpeech dbC7 ("acme".data) ("c1".data) ("I want a person".data)
        ("Let me transfer you to a human.".data) ("/tts/1.wav".data)).1.callback_requests =
      dbC7.callback_requests ++
        [{ conversation_id := "c1".data, tenant_id := "acme".data,
           reason := some ("Customer requested human assistance".data),
           cb_status := "pending".data }] :=
  (c7_transfer_creates_pending_callback dbC7 ("acme".data) ("c1".data)
    ("I want a person".data) ("Let me transfer you to a human.".data)
    ("/tts/1.wav".data) (by decide)).2.1

end TenantAI

namespace ConfigMgr

/-- C8 (amended): the validator accepts exactly the bundles in which every
required sub-config is present with non-empty required fields, and a bundle
with missing top-level sub-configs is rejected with the error that lists
exactly the missing keys.  (What the original claim gets wrong, witnessed by
the counterexample: rejections for missing nested fields carry one fixed
message per sub-config — e.g. `Invalid Twilio credentials` — which lists no
key names.) -/
theorem c8_config_validation (c : TenantConfig) :
    (validateConfig c = .ok () ↔ specAccepts c = true) ∧
    (missingOf c ≠ [] →
      validateConfig c =
        .error ("Missing required configuration fields: ".data ++ joinComma (missingOf c))) := by
  constructor
  · obtain ⟨otw, oai, ovc, oag⟩ := c
    cases otw with
    | none => simp [validateConfig, missingOf, specAccepts]
    | some tw =>
      cases oai with
      | none => simp [validateConfig, missingOf, specAccepts]
      | some ai =>
        cases ovc with
        | none => simp [validateConfig, missingOf, specAccepts]
        | some vc =>
          cases oag with
          | none => simp [validateConfig, missingOf, specAccepts]
          | some ag =>
            simp only [validateConfig, missingOf, specAccepts, Option.isSome_some,
              if_true, List.append_nil, List.nil_append, ne_eq, not_true_eq_false,
              if_false]
            generalize tw.accountSid.isEmpty = b1
            generalize tw.authToken.isEmpty = b2
            generalize tw.phoneNumber.isEmpty = b3
            generalize ai.type.isEmpty = b4
            generalize ai.apiKey.isEmpty = b5
            generalize vc.voiceName.isEmpty = b6
            generalize ag.name.isEmpty = b7
            generalize ag.prompt.isEmpty = b8
            revert b1 b2 b3 b4 b5 b6 b7 b8
            decide
  · intro hmiss
    simp only [validateConfig]
    rw [if_pos hmiss]

/-- C8 counterexample to the claim as stated: two bundles in which different
required keys are missing (an empty `accountSid` in one, an empty `authToken`
in the other) are both rejected with the same fixed message
`Invalid Twilio credentials`, which lists no key names — so rejections do not
list exactly which required keys are missing. -/
theorem c8_generic_nested_error_counterexample :
    validateConfig
      { twilioCredentials := some { accountSid := [], authToken := "tok".data,
                                    phoneNumber := "+1555".data },
        aiConfig := some { type := "openai".data, apiKey := "sk".data },
        voiceConfig := some { voiceName := "aura".data },
        agentConfig := some { name := "Sarah".data, prompt := "p".data } } =
      .error ("Invalid Twilio credentials".data) ∧
    validateConfig
      { twilioCredentials := some { accountSid := "AC1".data, authToken := [],
                                    phoneNumber := "+1555".data },
        aiConfig := some { type := "openai".data, apiKey := "sk".data },
        voiceConfig := some { voiceName := "aura".data },
        agentConfig := some { name := "Sarah".data, prompt := "p".data } } =
      .error ("Invalid Twilio credentials".data) := by
  constructor <;> rfl

theorem c8_config_validation_witness :
    validateConfig cfgMissingEx =
      .error ("Missing required configuration fields: ".data ++
        joinComma (missingOf cfgMissingEx)) ∧
    validateConfig cfgGoodEx = .ok () :=
  ⟨(c8_config_validation cfgMissingEx).2 (by decide),
   (c8_config_validation cfgGoodEx).1.mpr (by decide)⟩

/-- C9: evaluating the code at the failing scenario — the same plaintext and
key encrypted twice, with two different draws of the random IV bytes — shows
the encrypted payload components of the two stored strings are identical: the
ciphertext does not depend on the per-encryption IV at all, because
`createCipher` derives key and internal IV from the password alone and the
random `iv` is only string-interpolated into the output.  This contradicts
the claim (and the spec), which require a fresh-nonce scheme whose payloads
differ; the code generates, serializes and re-parses an IV it never feeds to
the cipher, so the claim is the evident intent and the code is the bug. -/
theorem c9_ciphertext_ignores_iv (cipher : Str → Str → Str × Str)
    (encryptionKey text iv1 iv2 : Str)
    (h1 : ':' ∉ iv1) (h2 : ':' ∉ iv2) :
    encryptedComponent (_encrypt cipher encryptionKey iv1 text) =
      encryptedComponent (_encrypt cipher encryptionKey iv2 text) := by
  have hsp : ∀ iv : Str, ':' ∉ iv →
      JsStr.splitChar ':' (_encrypt cipher encryptionKey iv text) =
        iv :: JsStr.splitChar ':'
          ((cipher encryptionKey text).2 ++ (":".data ++ (cipher encryptionKey text).1)) := by
    intro iv hiv
    have h := JsStr.splitChar_append_no_sep ':' iv
      ((cipher encryptionKey text).2 ++ (":".data ++ (cipher encryptionKey text).1)) hiv
    exact h
  unfold encryptedComponent
  rw [hsp iv1 h1, hsp iv2 h2]
  rfl

theorem c9_ciphertext_ignores_iv_witness :
    encryptedComponent (_encrypt cipherEx ("k0".data) ("00ff".data) ("sk-secret".data)) =
      encryptedComponent (_encrypt cipherEx ("k0".data) ("a1b2".data) ("sk-secret".data)) :=
  c9_ciphertext_ignores_iv cipherEx ("k0".data) ("sk-secret".data)
    ("00ff".data) ("a1b2".data) (by decide) (by decide)

end ConfigMgr

namespace Completion

/-- C10 (implicit): whenever call completion stores an analysis for a
conversation (the conversation has messages), the updated row carries the
analysis rating together with `success = (rating >= 7)`; the `/status` route
builds the same derived field on its completed-call update; and the tenant
analytics `successful_calls` aggregate equals exactly the number of that
tenant's conversations whose stored rating is at least 7. -/
theorem c10_success_criterion (db : TenantDatabase) (callId : Str)
    (callDuration : Option Int) (recordingUrl : Option Str)
    (nowIso transcriptionJson analysisJson : Str) (analysisRating : Int)
    (r : ConvRow)
    (hr : r ∈ (handleCallCompletion db callId callDuration recordingUrl
        nowIso transcriptionJson analysisJson analysisRating).conversations)
    (hid : r.id = callId) (htid : r.tenant_id = db.tenantId)
    (hmsgs : (db.getMessages callId).length > 0) :
    (r.success = decide (analysisRating ≥ 7) ∧ r.rating = some analysisRating) ∧
    (∀ (body : StatusRoute.StatusBody) (txt aj : Str) (rt : Int),
      body.CallStatus = "completed".data →
      (StatusRoute.statusUpdates body txt aj rt).success = some (decide (rt ≥ 7))) ∧
    (∀ db2 : TenantDatabase,
      getAnalyticsSuccessfulCalls db2 = specSuccessfulCount db2) := by
  refine ⟨?_, ?_, ?_⟩
  · unfold handleCallCompletion at hr
    rw [if_pos hmsgs] at hr
    simp only [updateConversation] at hr
    obtain ⟨x1, hx1, hx1e⟩ := List.mem_map.mp hr
    by_cases hc1 : x1.id = callId ∧ x1.tenant_id = db.tenantId
    · rw [if_pos hc1] at hx1e
      cases hx1e
      exact ⟨rfl, rfl⟩
    · rw [if_neg hc1] at hx1e
      cases hx1e
      exact absurd ⟨hid, htid⟩ hc1
  · intro body txt aj rt hcs
    simp [StatusRoute.statusUpdates, hcs]
  · intro db2
    unfold getAnalyticsSuccessfulCalls specSuccessfulCount
    rw [List.countP_eq_length_filter, List.filter_filter]
    apply congrArg List.length
    apply List.filter_congr
    intro r2 _
    by_cases ht2 : r2.tenant_id = db2.tenantId
    · cases hv : r2.rating with
      | none => simp [ht2, hv, ratedSuccessful]
      | some v =>
        by_cases h7 : 7 ≤ v
        · simp [ht2, hv, ratedSuccessful, h7]
        · simp [ht2, hv, ratedSuccessful, h7]
    · simp [ht2]

theorem c10_success_criterion_witness :
    ∃ r : ConvRow, r ∈ dbC10after.conversations ∧
      r.success = decide ((8 : Int) ≥ 7) ∧ r.rating = some 8 ∧
      getAnalyticsSuccessfulCalls dbC10after = specSuccessfulCount dbC10after := by
  refine ⟨{ dbC10.conversations.head (by decide) with
            conv_status := "completed".data, completed_at := some ("2026-01-01".data),
            duration := some 30, recording_url := some ("http://r".data),
            transcription := some ("[]".data), analysis := some ("a-json".data),
            rating := some 8, success := decide ((8 : Int) ≥ 7) }, ?_, ?_⟩
  · decide
  · have h := c10_success_criterion dbC10 ("c1".data) (some 30) (some ("http://r".data))
      ("2026-01-01".data) ("[]".data) ("a-json".data) 8
      ({ dbC10.conversations.head (by decide) with
         conv_status := "completed".data, completed_at := some ("2026-01-01".data),
         duration := some 30, recording_url := some ("http://r".data),
         transcription := some ("[]".data), analysis := some ("a-json".data),
         rating := some 8, success := decide ((8 : Int) ≥ 7) })
      (by decide) (by decide) (by decide) (by decide)
    exact ⟨h.1.1, h.1.2, h.2.2 dbC10after⟩

end Completion
